import Mathlib

/-!
Shallow embedding of `src/ragas/src/ragas/integrations/huggingface.py`.

The module has two functions:
* `_safe_json_loads_` — a defensive wrapper around `json.loads`;
* `huggingface_tokenizer` — a lazily-initialized accessor for a
  HuggingFace tokenizer handle, driven by the environment variables
  `HF_TOKENIZER_MODEL` and `HF_TOKENIZER_ARGS`, caching the handle in the
  module-level global `_HF_TOKENIZER` and writing
  `TOKENIZERS_PARALLELISM="false"` before construction.

External collaborators (the Python standard library `json.loads`, the
statement `from transformers import AutoTokenizer`, and the call
`AutoTokenizer.from_pretrained`) are modelled parametrically via the
`Externals` record: the embedding fixes only the control flow of the
repository code and quantifies over every behaviour the collaborators may
exhibit, including raising arbitrary Python exceptions.

State is passed explicitly: the cache global is an `Option Handle`, the
process environment is the record of the three variables the module
touches, and the returned `RunResult` additionally records the sequence of
construction calls performed (with a snapshot of the environment at call
time) and the sequence of environment-variable writes, so that claims
about "no construction happened" or "the flag was set before construction"
are directly statable.
-/

/-- Kinds of Python exceptions relevant to the module. `nameError` covers
`NameError` (the class tested by `isinstance(e, NameError)` at line 73);
`jsonDecodeError` covers `json.JSONDecodeError` (the class caught inside
`_safe_json_loads_`); `valueError` and `runtimeError` are the classes the
module itself raises; `otherError` stands for every other exception class
(e.g. `ImportError`, `OSError`, `TypeError`). -/
inductive ExnKind where
  | nameError
  | valueError
  | jsonDecodeError
  | runtimeError
  | otherError
deriving DecidableEq

/-- A Python exception value: its class kind, its message, and its
`__cause__` as set by `raise X from e` (none when not chained). -/
inductive Exn where
  | mk (kind : ExnKind) (msg : String) (cause : Option Exn)

def Exn.kind : Exn → ExnKind
  | .mk k _ _ => k

def Exn.msg : Exn → String
  | .mk _ m _ => m

def Exn.cause : Exn → Option Exn
  | .mk _ _ c => c

def Exn.decEq : (a b : Exn) → Decidable (a = b)
  | .mk k1 m1 c1, .mk k2 m2 c2 =>
    have dc : Decidable (c1 = c2) :=
      match c1, c2 with
      | none, none => isTrue rfl
      | some x, some y =>
        match Exn.decEq x y with
        | isTrue h => isTrue (by rw [h])
        | isFalse h => isFalse (fun hh => h (Option.some.inj hh))
      | none, some _ => isFalse (fun h => Option.noConfusion h)
      | some _, none => isFalse (fun h => Option.noConfusion h)
    if h1 : k1 = k2 then
      if h2 : m1 = m2 then
        match dc with
        | isTrue h3 => isTrue (by rw [h1, h2, h3])
        | isFalse h3 => isFalse (by intro h; injection h; exact h3 (by assumption))
      else isFalse (by intro h; injection h; exact h2 (by assumption))
    else isFalse (by intro h; injection h; exact h1 (by assumption))

instance : DecidableEq Exn := Exn.decEq

instance {e a : Type} [DecidableEq e] [DecidableEq a] :
    DecidableEq (Except e a) := fun x y =>
  match x, y with
  | .ok u, .ok v =>
    if h : u = v then isTrue (by rw [h])
    else isFalse (fun hh => h (Except.ok.inj hh))
  | .error u, .error v =>
    if h : u = v then isTrue (by rw [h])
    else isFalse (fun hh => h (Except.error.inj hh))
  | .ok _, .error _ => isFalse (fun hh => Except.noConfusion hh)
  | .error _, .ok _ => isFalse (fun hh => Except.noConfusion hh)

/-- The values `json.loads` can return: JSON objects (Python dicts with
string keys), arrays, strings, integers, booleans and null. (JSON floats
are irrelevant to every claim and are omitted; the decoder is a parameter,
so this type only needs to distinguish objects from non-objects and carry
the decoded value through unchanged.) -/
inductive JsonValue where
  | obj (fields : List (String × JsonValue))
  | arr (elems : List JsonValue)
  | str (s : String)
  | num (n : Int)
  | bool (b : Bool)
  | null

/-- Whether a decoded JSON value is an object (a Python dict). -/
def JsonValue.isObj : JsonValue → Bool
  | .obj _ => true
  | _ => false

/-- A single-quote character as a string, used to spell the Python `repr`
of a string and the quoted variable name in the module's error message. -/
def squote : String := String.singleton (Char.ofNat 39)

/-- Python `repr` of a string, as interpolated by `f"... {s!r}"` at line
35, modelled for strings without quotes, backslashes or non-printable
characters (CPython then renders exactly a single-quoted copy). -/
def pyRepr (s : String) : String := squote ++ s ++ squote

/-- The `ValueError` message raised by `_safe_json_loads_` (line 35):
`f"Failed to decode JSON string {s!r}"`. -/
def decodeFailMsg (s : String) : String :=
  "Failed to decode JSON string " ++ pyRepr s

/-- The `NameError` message raised when `HF_TOKENIZER_MODEL` is unset or
empty (lines 57-59). -/
def NAME_ERROR_MSG : String :=
  "HF_TOKENIZER_MODEL environment variable must be set to use Huggingface tokenizer."

/-- The `RuntimeError` message used to wrap construction failures
(lines 76-78). -/
def WRAP_MSG : String :=
  "Failed to load Huggingface tokenizer. Unset environment variable " ++
    pyRepr "HF_TOKENIZER_MODEL" ++ " to disable using huggingface tokenizer."

/-- `_safe_json_loads_` (lines 25-35): return `{}` for `None` or the empty
string; otherwise call `json.loads`; a `json.JSONDecodeError` is re-raised
as a `ValueError` naming the input with the decode error as cause; any
other exception from the decoder would propagate unwrapped (the `except`
clause at line 34 catches only `json.JSONDecodeError`). The decoder
`jsonLoads` is a parameter standing for `json.loads`. -/
def safe_json_loads (jsonLoads : String → Except Exn JsonValue)
    (s : Option String) : Except Exn JsonValue :=
  match s with
  | none => .ok (.obj [])
  | some str =>
    if str = "" then .ok (.obj [])
    else
      match jsonLoads str with
      | .ok v => .ok v
      | .error e =>
        if e.kind = ExnKind.jsonDecodeError then
          .error (Exn.mk .valueError (decodeFailMsg str) (some e))
        else
          .error e

/-- The process environment restricted to the three variables the module
reads or writes: `HF_TOKENIZER_MODEL`, `HF_TOKENIZER_ARGS` and
`TOKENIZERS_PARALLELISM`. `none` models an unset variable. -/
structure PyEnv where
  hfModel : Option String
  hfArgs : Option String
  tokenizersParallelism : Option String
deriving DecidableEq

/-- The external collaborators of `huggingface_tokenizer`, as parameters:
`loadTransformers` models the statement `from transformers import
AutoTokenizer` (line 53), which succeeds or raises (e.g.
`ModuleNotFoundError` when the optional dependency is absent);
`jsonLoads` models `json.loads`; `fromPretrained` models
`AutoTokenizer.from_pretrained(model, **args)` (lines 67-69), which may
read the process environment, hence receives the environment current at
call time. -/
structure Externals (Handle : Type) where
  loadTransformers : Except Exn Unit
  jsonLoads : String → Except Exn JsonValue
  fromPretrained : PyEnv → String → JsonValue → Except Exn Handle

/-- The observable outcome of one accessor call: the returned value or
raised exception, the cache global afterwards, the environment afterwards,
the construction calls performed (environment snapshot at call time, model
identifier and parsed arguments), and the environment-variable writes
performed, in order. -/
structure RunResult (Handle : Type) where
  result : Except Exn (Option Handle)
  state : Option Handle
  env : PyEnv
  calls : List (PyEnv × String × JsonValue)
  writes : List (String × String)

/-- The wrapping performed by the `except` clause (lines 76-78):
`raise RuntimeError(...) from e`. -/
def wrapExn (e : Exn) : Exn := Exn.mk .runtimeError WRAP_MSG (some e)

/-- The `except Exception as e` clause (lines 72-79): a `NameError` (the
`isinstance` test at line 73) is swallowed and the call returns `None`;
every other exception is re-raised wrapped in a `RuntimeError` with the
original as cause. The cache global is never assigned on these paths. -/
def handleCaught {Handle : Type} (e : Exn) (env : PyEnv)
    (calls : List (PyEnv × String × JsonValue))
    (writes : List (String × String)) : RunResult Handle :=
  if e.kind = ExnKind.nameError then
    ⟨.ok none, none, env, calls, writes⟩
  else
    ⟨.error (wrapExn e), none, env, calls, writes⟩

/-- `huggingface_tokenizer` (lines 41-79). Control flow of the source:
if the global `_HF_TOKENIZER` is defined, return it (lines 49-50);
otherwise import the library (line 53), read `HF_TOKENIZER_MODEL` and
raise `NameError` if it is unset or empty (`if not hf_tokenizer_model`,
lines 55-59), parse `HF_TOKENIZER_ARGS` (lines 60-61), set
`TOKENIZERS_PARALLELISM` to `"false"` (lines 63-65), construct the
tokenizer and cache it (lines 67-71). Any exception along the way is
routed through `handleCaught`. -/
def huggingface_tokenizer {Handle : Type} (ext : Externals Handle)
    (st : Option Handle) (env : PyEnv) : RunResult Handle :=
  match st with
  | some h => ⟨.ok (some h), some h, env, [], []⟩
  | none =>
    match ext.loadTransformers with
    | .error e => handleCaught e env [] []
    | .ok _ =>
      match env.hfModel with
      | none => handleCaught (Exn.mk .nameError NAME_ERROR_MSG none) env [] []
      | some m =>
        if m = "" then
          handleCaught (Exn.mk .nameError NAME_ERROR_MSG none) env [] []
        else
          match safe_json_loads ext.jsonLoads env.hfArgs with
          | .error e => handleCaught e env [] []
          | .ok args =>
            let env2 : PyEnv := { env with tokenizersParallelism := some "false" }
            match ext.fromPretrained env2 m args with
            | .error e =>
              handleCaught e env2 [(env2, m, args)]
                [("TOKENIZERS_PARALLELISM", "false")]
            | .ok hdl =>
              ⟨.ok (some hdl), some hdl, env2, [(env2, m, args)],
                [("TOKENIZERS_PARALLELISM", "false")]⟩

/-- A sequence of accessor calls within one process, each with its own
externals and environment, threading the cache global from call to call.
Returns the list of per-call outcomes and the final cache state. -/
def runSeq {Handle : Type} (cs : List (Externals Handle × PyEnv))
    (st : Option Handle) : List (RunResult Handle) × Option Handle :=
  match cs with
  | [] => ([], st)
  | c :: rest =>
    let r := huggingface_tokenizer c.1 st c.2
    let p := runSeq rest r.state
    (r :: p.1, p.2)

/-- The `json.JSONDecodeError` CPython raises on the input `"not json"`. -/
def notJsonErr : Exn :=
  Exn.mk .jsonDecodeError "Expecting value: line 1 column 1 (char 0)" none

/-- The `ModuleNotFoundError` raised by `from transformers import
AutoTokenizer` when the optional dependency is not installed. -/
def noTransformersErr : Exn :=
  Exn.mk .otherError ("No module named " ++ pyRepr "transformers") none

/-- A `NameError` raised from inside the external library's construction
call (e.g. by remote code executed during `from_pretrained`). -/
def libNameErr : Exn :=
  Exn.mk .nameError ("name " ++ pyRepr "tok" ++ " is not defined") none

/-- An `OSError`-like failure from the external library's construction
call (e.g. a network failure while fetching the model). -/
def libOsErr : Exn := Exn.mk .otherError "Connection error" none

/-- Externals where the library imports fine, the decoder always fails
with a JSON decode error, and construction would succeed. -/
def extBadJson : Externals Nat :=
  { loadTransformers := .ok (),
    jsonLoads := fun _ => .error notJsonErr,
    fromPretrained := fun _ _ _ => .ok 0 }

/-- Externals where the library import itself fails. -/
def extNoTransformers : Externals Nat :=
  { loadTransformers := .error noTransformersErr,
    jsonLoads := fun _ => .ok .null,
    fromPretrained := fun _ _ _ => .ok 0 }

/-- Externals whose construction call raises a `NameError`. -/
def extLibNameErr : Externals Nat :=
  { loadTransformers := .ok (),
    jsonLoads := fun _ => .ok .null,
    fromPretrained := fun _ _ _ => .error libNameErr }

/-- Externals whose construction call raises a non-`NameError` failure. -/
def extLibOsErr : Externals Nat :=
  { loadTransformers := .ok (),
    jsonLoads := fun _ => .ok .null,
    fromPretrained := fun _ _ _ => .error libOsErr }

/-- Externals where every step succeeds, producing handle `7`. -/
def extOk : Externals Nat :=
  { loadTransformers := .ok (),
    jsonLoads := fun _ => .ok (.obj [("use_fast", .bool true)]),
    fromPretrained := fun _ _ _ => .ok 7 }

/-- An environment with all three variables unset. -/
def envUnset : PyEnv :=
  { hfModel := none, hfArgs := none, tokenizersParallelism := none }

/-- An environment with only the model identifier set. -/
def envModelOnly : PyEnv :=
  { hfModel := some "bert-base-uncased", hfArgs := none,
    tokenizersParallelism := none }

/-- An environment with the model identifier set and a non-JSON options
string. -/
def envBadJson : PyEnv :=
  { hfModel := some "bert-base-uncased", hfArgs := some "not json",
    tokenizersParallelism := none }

/-- The catch clause never assigns the cache global, whatever the
exception. -/
@[simp]
theorem handleCaught_state (Handle : Type) (e : Exn) (env : PyEnv)
    (calls : List (PyEnv × String × JsonValue))
    (writes : List (String × String)) :
    (handleCaught e env calls writes : RunResult Handle).state = none := by
  by_cases hk : e.kind = ExnKind.nameError <;> simp [handleCaught, hk]

/-- The catch clause leaves the environment as it found it. -/
@[simp]
theorem handleCaught_env (Handle : Type) (e : Exn) (env : PyEnv)
    (calls : List (PyEnv × String × JsonValue))
    (writes : List (String × String)) :
    (handleCaught e env calls writes : RunResult Handle).env = env := by
  by_cases hk : e.kind = ExnKind.nameError <;> simp [handleCaught, hk]

/-- The catch clause performs no construction call of its own. -/
@[simp]
theorem handleCaught_calls (Handle : Type) (e : Exn) (env : PyEnv)
    (calls : List (PyEnv × String × JsonValue))
    (writes : List (String × String)) :
    (handleCaught e env calls writes : RunResult Handle).calls = calls := by
  by_cases hk : e.kind = ExnKind.nameError <;> simp [handleCaught, hk]

/-- The catch clause performs no environment write of its own. -/
@[simp]
theorem handleCaught_writes (Handle : Type) (e : Exn) (env : PyEnv)
    (calls : List (PyEnv × String × JsonValue))
    (writes : List (String × String)) :
    (handleCaught e env calls writes : RunResult Handle).writes = writes := by
  by_cases hk : e.kind = ExnKind.nameError <;> simp [handleCaught, hk]

/-- Claim C5: for every decoder, the JSON-options parser maps the absent
value and the empty string to the empty mapping, raising no error. -/
theorem C5_parser_empty_or_absent (jl : String → Except Exn JsonValue) :
    safe_json_loads jl none = .ok (.obj []) ∧
    safe_json_loads jl (some "") = .ok (.obj []) :=
  ⟨rfl, rfl⟩

/-- Claim C6: for every non-empty input on which the decoder raises a
JSON decode error, the parser fails with a `ValueError` whose message
echoes the offending input (the input occurs verbatim in the message) and
whose cause is the underlying decode error. -/
theorem C6_parser_invalid_json (jl : String → Except Exn JsonValue)
    (s : String) (e : Exn) (hs : s ≠ "") (hj : jl s = .error e)
    (hk : e.kind = ExnKind.jsonDecodeError) :
    safe_json_loads jl (some s) =
      .error (Exn.mk .valueError (decodeFailMsg s) (some e)) ∧
    ∃ pre post, decodeFailMsg s = pre ++ s ++ post := by
  constructor
  · simp [safe_json_loads, hs, hj, hk]
  · exact ⟨"Failed to decode JSON string " ++ squote, squote, by
      simp [decodeFailMsg, pyRepr, String.append_assoc]⟩

/-- Witness for C6 at the decoder raising CPython's decode error on the
concrete input `"not json"`. -/
theorem C6_parser_invalid_json_witness :
    safe_json_loads (fun _ => .error notJsonErr) (some "not json") =
      .error (Exn.mk .valueError (decodeFailMsg "not json") (some notJsonErr)) ∧
    ∃ pre post, decodeFailMsg "not json" = pre ++ "not json" ++ post :=
  C6_parser_invalid_json (fun _ => .error notJsonErr) "not json" notJsonErr
    (by decide) rfl rfl

/-- Claim C7: for every non-empty input that the decoder parses as a JSON
object, the parser returns that object mapping unchanged. -/
theorem C7_parser_valid_object (jl : String → Except Exn JsonValue)
    (s : String) (fields : List (String × JsonValue)) (hs : s ≠ "")
    (hj : jl s = .ok (.obj fields)) :
    safe_json_loads jl (some s) = .ok (.obj fields) := by
  simp [safe_json_loads, hs, hj]

/-- Witness for C7 at a concrete object-valued decode. -/
theorem C7_parser_valid_object_witness :
    safe_json_loads (fun _ => .ok (.obj [("use_fast", .bool true)]))
        (some "\x7b\"use_fast\": true\x7d") =
      .ok (.obj [("use_fast", .bool true)]) :=
  C7_parser_valid_object (fun _ => .ok (.obj [("use_fast", .bool true)]))
    "\x7b\"use_fast\": true\x7d" [("use_fast", .bool true)] (by decide) rfl

/-- Claim C10: for every non-empty input that the decoder parses as a
non-object JSON value, the parser raises no error and returns the parsed
value as-is — no object-shape validation is performed. -/
theorem C10_parser_non_object_passthrough (jl : String → Except Exn JsonValue)
    (s : String) (v : JsonValue) (hs : s ≠ "") (hj : jl s = .ok v)
    (hv : v.isObj = false) :
    safe_json_loads jl (some s) = .ok v := by
  simp [safe_json_loads, hs, hj]

/-- Witness for C10 at a concrete JSON-array decode. -/
theorem C10_parser_non_object_passthrough_witness :
    safe_json_loads (fun _ => .ok (.arr [.num 1, .num 2])) (some "[1, 2]") =
      .ok (.arr [.num 1, .num 2]) :=
  C10_parser_non_object_passthrough (fun _ => .ok (.arr [.num 1, .num 2]))
    "[1, 2]" (.arr [.num 1, .num 2]) (by decide) rfl rfl

/-- Claim C3: once the cache global holds a handle, every subsequent
accessor call in the process — with arbitrary externals and arbitrary
(possibly changed) environments — returns the identical cached handle,
leaves its environment untouched, performs no construction call and no
environment write, and the cache never leaves the initialized state. -/
theorem C3_cached_handle_stable {Handle : Type} (h : Handle)
    (cs : List (Externals Handle × PyEnv)) :
    (runSeq cs (some h)).1 =
      cs.map (fun c => ⟨.ok (some h), some h, c.2, [], []⟩) ∧
    (runSeq cs (some h)).2 = some h := by
  induction cs with
  | nil => exact ⟨rfl, rfl⟩
  | cons c rest ih =>
    refine ⟨?_, ?_⟩ <;> simp [runSeq, huggingface_tokenizer, ih.1, ih.2]

/-- Claim C4 counterexample: in the uninitialized state with
`HF_TOKENIZER_MODEL` unset but the external library import failing (the
optional dependency `transformers` absent), the accessor raises a wrapped
`RuntimeError` instead of returning the absence value: the import at
line 53 precedes the environment-variable check at lines 55-59. -/
theorem C4_counterexample :
    (huggingface_tokenizer extNoTransformers none envUnset).result =
      .error (Exn.mk .runtimeError WRAP_MSG (some noTransformersErr)) ∧
    (huggingface_tokenizer extNoTransformers none envUnset).result ≠
      .ok none := by
  exact ⟨rfl, by decide⟩

/-- Claim C4 as amended: provided the external library import succeeds, a
call in the uninitialized state with `HF_TOKENIZER_MODEL` unset returns
the absence value, raises no exception, leaves the state uninitialized,
the environment unchanged, and performs no construction. -/
theorem C4_amended {Handle : Type} (ext : Externals Handle) (env : PyEnv)
    (himp : ext.loadTransformers = .ok ()) (hm : env.hfModel = none) :
    huggingface_tokenizer ext none env = ⟨.ok none, none, env, [], []⟩ := by
  simp [huggingface_tokenizer, himp, hm, handleCaught, Exn.kind]

/-- Witness for C4 at concrete fully-succeeding externals and the
all-unset environment. -/
theorem C4_amended_witness :
    huggingface_tokenizer extOk none envUnset =
      ⟨.ok none, none, envUnset, [], []⟩ :=
  C4_amended extOk envUnset rfl rfl

/-- Claim C9 counterexample: with the external library import failing,
the call with `HF_TOKENIZER_MODEL` set to the empty string raises a
wrapped `RuntimeError` rather than returning the absence value (the
equal-treatment core of the claim still holds; see the amended form). -/
theorem C9_counterexample :
    (huggingface_tokenizer extNoTransformers none
        { envUnset with hfModel := some "" }).result =
      .error (Exn.mk .runtimeError WRAP_MSG (some noTransformersErr)) ∧
    (huggingface_tokenizer extNoTransformers none
        { envUnset with hfModel := some "" }).result ≠ .ok none := by
  exact ⟨rfl, by decide⟩

/-- Claim C9 as amended: setting `HF_TOKENIZER_MODEL` to the empty string
is treated exactly like leaving it unset — for arbitrary externals, cache
state and environment, the observable outcome (returned value or raised
exception, cache state, construction calls, environment writes) is
identical to the run with the variable removed; and, provided the
library loads, the call returns the absence value without raising and
performs no construction. -/
theorem C9_amended {Handle : Type} (ext : Externals Handle)
    (st : Option Handle) (env : PyEnv) :
    ((huggingface_tokenizer ext st { env with hfModel := some "" }).result =
        (huggingface_tokenizer ext st { env with hfModel := none }).result ∧
      (huggingface_tokenizer ext st { env with hfModel := some "" }).state =
        (huggingface_tokenizer ext st { env with hfModel := none }).state ∧
      (huggingface_tokenizer ext st { env with hfModel := some "" }).calls =
        (huggingface_tokenizer ext st { env with hfModel := none }).calls ∧
      (huggingface_tokenizer ext st { env with hfModel := some "" }).writes =
        (huggingface_tokenizer ext st { env with hfModel := none }).writes) ∧
    (ext.loadTransformers = .ok () →
      huggingface_tokenizer ext none { env with hfModel := some "" } =
        ⟨.ok none, none, { env with hfModel := some "" }, [], []⟩) := by
  constructor
  · cases st with
    | some h => exact ⟨rfl, rfl, rfl, rfl⟩
    | none =>
      rcases himp : ext.loadTransformers with e | u
      · by_cases hk : e.kind = ExnKind.nameError <;>
          simp [huggingface_tokenizer, himp, handleCaught, hk]
      · simp [huggingface_tokenizer, himp, handleCaught, Exn.kind]
  · intro himp
    simp [huggingface_tokenizer, himp, handleCaught, Exn.kind]

/-- Witness for C9 at concrete fully-succeeding externals. -/
theorem C9_amended_witness :
    huggingface_tokenizer extOk none { envUnset with hfModel := some "" } =
      ⟨.ok none, none, { envUnset with hfModel := some "" }, [], []⟩ :=
  (C9_amended extOk none envUnset).2 rfl

/-- Claim C1 counterexample: with the model set and the options string
not valid JSON, the accessor does not fail with the data-format error —
the `except` clause at lines 72-78 re-wraps it, so the raised exception
is a `RuntimeError` whose own message is the unset-the-variable
instruction, with the data-format `ValueError` only as its cause. -/
theorem C1_counterexample :
    (huggingface_tokenizer extBadJson none envBadJson).result =
      .error (Exn.mk .runtimeError WRAP_MSG
        (some (Exn.mk .valueError (decodeFailMsg "not json")
          (some notJsonErr)))) ∧
    ExnKind.runtimeError ≠ ExnKind.valueError := by
  exact ⟨rfl, by decide⟩

/-- Claim C1 as amended: with the model identifier present and non-empty,
the import succeeding, and the options string failing to decode, the
accessor raises a `RuntimeError` whose cause is the data-format
`ValueError` echoing the offending options string (which in turn has the
decode error as its cause); no handle is cached (the state stays
uninitialized, so a subsequent call re-attempts construction), the
environment is unchanged, and no construction call occurs. -/
theorem C1_amended {Handle : Type} (ext : Externals Handle) (env : PyEnv)
    (m s : String) (e : Exn)
    (himp : ext.loadTransformers = .ok ())
    (hm : env.hfModel = some m) (hm0 : m ≠ "")
    (ha : env.hfArgs = some s) (hs : s ≠ "")
    (hj : ext.jsonLoads s = .error e)
    (hk : e.kind = ExnKind.jsonDecodeError) :
    huggingface_tokenizer ext none env =
      ⟨.error (Exn.mk .runtimeError WRAP_MSG
          (some (Exn.mk .valueError (decodeFailMsg s) (some e)))),
        none, env, [], []⟩ ∧
    ∃ pre post, decodeFailMsg s = pre ++ s ++ post := by
  obtain ⟨em, ea, et⟩ := env
  obtain ⟨ke, me, ce⟩ := e
  simp only [Exn.kind] at hk
  simp only at hm ha
  subst hk hm ha
  constructor
  · simp [huggingface_tokenizer, himp, hm0, safe_json_loads, hs, hj,
      handleCaught, wrapExn, Exn.kind]
  · exact ⟨"Failed to decode JSON string " ++ squote, squote, by
      simp [decodeFailMsg, pyRepr, String.append_assoc]⟩

/-- Witness for C1's amended form at the concrete options string
`"not json"`. -/
theorem C1_amended_witness :
    (huggingface_tokenizer extBadJson none envBadJson =
      ⟨.error (Exn.mk .runtimeError WRAP_MSG
          (some (Exn.mk .valueError (decodeFailMsg "not json")
            (some notJsonErr)))),
        none, envBadJson, [], []⟩) ∧
    ∃ pre post, decodeFailMsg "not json" = pre ++ "not json" ++ post :=
  C1_amended extBadJson envBadJson "bert-base-uncased" "not json"
    notJsonErr rfl rfl (by decide) rfl (by decide) rfl rfl

/-- Claim C2 counterexample: a `NameError` raised by the external
library's construction call is not wrapped into a `RuntimeError` — the
`isinstance(e, NameError)` test at line 73 cannot distinguish it from the
accessor's own absent-variable signal, so the call returns the absence
value. The construction call did happen (the calls list is nonempty). -/
theorem C2_counterexample :
    (huggingface_tokenizer extLibNameErr none envModelOnly).result =
      .ok none ∧
    (huggingface_tokenizer extLibNameErr none envModelOnly).calls =
      [({ envModelOnly with tokenizersParallelism := some "false" },
        "bert-base-uncased", JsonValue.obj [])] ∧
    (huggingface_tokenizer extLibNameErr none envModelOnly).result ≠
      .error (wrapExn libNameErr) := by
  refine ⟨rfl, rfl, ?_⟩
  intro hc
  exact Except.noConfusion hc

/-- Claim C2 as amended: when construction is reached and the external
library's construction call raises an exception, the accessor wraps it
into a `RuntimeError` instructing the caller to unset
`HF_TOKENIZER_MODEL`, with the original exception preserved as the cause
— unless the raised exception is itself a `NameError`, which the accessor
treats like its own absent-variable signal and swallows, returning the
absence value. In either case no failure state is cached: the cache stays
uninitialized. -/
theorem C2_amended {Handle : Type} (ext : Externals Handle) (env : PyEnv)
    (m : String) (args : JsonValue) (e : Exn)
    (himp : ext.loadTransformers = .ok ())
    (hm : env.hfModel = some m) (hm0 : m ≠ "")
    (hp : safe_json_loads ext.jsonLoads env.hfArgs = .ok args)
    (hc : ext.fromPretrained
        { env with tokenizersParallelism := some "false" } m args =
      .error e) :
    huggingface_tokenizer ext none env =
      ⟨if e.kind = ExnKind.nameError then .ok none
        else .error (Exn.mk .runtimeError WRAP_MSG (some e)),
        none, { env with tokenizersParallelism := some "false" },
        [({ env with tokenizersParallelism := some "false" }, m, args)],
        [("TOKENIZERS_PARALLELISM", "false")]⟩ := by
  obtain ⟨em, ea, et⟩ := env
  simp only at hm
  subst hm
  by_cases hk : e.kind = ExnKind.nameError <;>
    simp [huggingface_tokenizer, himp, hm0, hp, hc, handleCaught,
      wrapExn, hk]

/-- Witness for C2's amended form at a concrete non-`NameError`
construction failure. -/
theorem C2_amended_witness :
    huggingface_tokenizer extLibOsErr none envModelOnly =
      ⟨.error (Exn.mk .runtimeError WRAP_MSG (some libOsErr)), none,
        { envModelOnly with tokenizersParallelism := some "false" },
        [({ envModelOnly with tokenizersParallelism := some "false" },
          "bert-base-uncased", JsonValue.obj [])],
        [("TOKENIZERS_PARALLELISM", "false")]⟩ := by
  simpa using C2_amended extLibOsErr envModelOnly "bert-base-uncased"
    (JsonValue.obj []) libOsErr rfl rfl (by decide) rfl rfl

/-- Claim C8: on every call reaching the construction step (state
uninitialized, import succeeded, model identifier present and non-empty,
options parsed), exactly one environment write occurs — the parallelism
flag `TOKENIZERS_PARALLELISM` set to the string `"false"` — and exactly
one construction call occurs, whose environment snapshot already carries
the flag, i.e. the flag is set before the external construction call;
this holds whether the construction then succeeds or fails. -/
theorem C8_parallelism_flag_before_construction {Handle : Type}
    (ext : Externals Handle) (env : PyEnv) (m : String) (args : JsonValue)
    (himp : ext.loadTransformers = .ok ())
    (hm : env.hfModel = some m) (hm0 : m ≠ "")
    (hp : safe_json_loads ext.jsonLoads env.hfArgs = .ok args) :
    ∃ cenv : PyEnv,
      (huggingface_tokenizer ext none env).calls = [(cenv, m, args)] ∧
      cenv.tokenizersParallelism = some "false" ∧
      (huggingface_tokenizer ext none env).writes =
        [("TOKENIZERS_PARALLELISM", "false")] := by
  obtain ⟨em, ea, et⟩ := env
  simp only at hm
  subst hm
  refine ⟨⟨some m, ea, some "false"⟩, ?_, rfl, ?_⟩ <;>
    rcases hc : ext.fromPretrained ⟨some m, ea, some "false"⟩ m args
      with e | hdl <;>
    simp [huggingface_tokenizer, himp, hm0, hp, hc]

/-- Witness for C8 at concrete fully-succeeding externals. -/
theorem C8_parallelism_flag_before_construction_witness :
    ∃ cenv : PyEnv,
      (huggingface_tokenizer extOk none envModelOnly).calls =
        [(cenv, "bert-base-uncased", JsonValue.obj [])] ∧
      cenv.tokenizersParallelism = some "false" ∧
      (huggingface_tokenizer extOk none envModelOnly).writes =
        [("TOKENIZERS_PARALLELISM", "false")] :=
  C8_parallelism_flag_before_construction extOk envModelOnly
    "bert-base-uncased" (JsonValue.obj []) rfl rfl (by decide) rfl
